import Mathlib

/-!
Shallow embedding of the check-and-notify cycle of the vaccine-checker
program (`check.go`, driven by the polling loop in `main.go`).

Modelling conventions:
* GeoJSON feature properties appear as `Option` fields: `none` models a
  property that is absent (or not of the demanded type), so that
  `Properties.MustBool` / `Properties.MustInt` become `Option.getD`.
* Geographic coordinates and distances are rationals; `geo.Distance`
  (a transcendental haversine computation on float64) is abstracted as an
  explicit parameter `dist : Point → Point → ℚ` threaded through the cycle.
* The two outbound HTTP calls are abstracted by their outcomes:
  `FetchOutcome` for the search request (including decode failure) and
  `NetResult` for the notification request.  An HTTP client is reduced to
  its one configured field, the timeout (`0` models Go's zero value,
  i.e. no timeout, as on `http.DefaultClient`).
* Go `error` results become `Option` of an error type (`none` = nil).
-/

namespace VaccineChecker

/-- A geographic point, `(longitude, latitude)` as in `orb.Point`. -/
abbrev Point := ℚ × ℚ

/-- One GeoJSON feature (an appointment site), restricted to the
properties `check.go` reads: `id`, `appointments_available`,
`appointments_available_2nd_dose_only`, and its point geometry. -/
structure Feature where
  id? : Option Int
  appointments_available : Option Bool
  appointments_available_2nd_dose_only : Option Bool
  point : Point
  deriving DecidableEq, Repr

/-- `Properties.MustBool key fallback`: the stored bool, or the fallback
when the property is absent or not a bool. -/
def mustBool (v : Option Bool) (fallback : Bool) : Bool := v.getD fallback

/-- `Properties.MustInt key fallback`: the stored integer, or the fallback
when the property is absent or not numeric. -/
def mustInt (v : Option Int) (fallback : Int) : Int := v.getD fallback

/-- The configuration values (viper lookups) the cycle reads. Durations
are in seconds. -/
structure Config where
  longitude : ℚ
  latitude : ℚ
  distanceKm : ℚ
  searchTimeout : ℚ
  notificationTimeout : ℚ
  includeSecondDoseOnly : Bool
  silent : Bool
  deriving DecidableEq, Repr

/-- An `http.Client`, reduced to its configured timeout
(`0` = Go zero value = no timeout). -/
structure Client where
  timeout : ℚ
  deriving DecidableEq, Repr

/-- `http.DefaultClient`: a zero-valued client, hence no timeout. -/
def defaultClient : Client := ⟨0⟩

/-- Default notification timeout from `main.go` (`10 * time.Second`). -/
def defaultNotificationTimeout : ℚ := 10

/-- Default search timeout from `main.go` (`20 * time.Second`). -/
def defaultSearchTimeout : ℚ := 20

/-- `metersPerKilometer` from `check.go`. -/
def metersPerKilometer : ℚ := 1000

/-- The `Checker` struct of `check.go`. -/
structure Checker where
  location : Point
  distance : ℚ
  searchClient : Client
  notifyClient : Client
  lastFound : List Feature
  deriving DecidableEq, Repr

/-- `NewChecker`: builds the checker from configuration; the distance
radius arrives in kilometers and is stored in meters. -/
def NewChecker (cfg : Config) : Checker :=
  { location := (cfg.longitude, cfg.latitude)
    distance := cfg.distanceKm * metersPerKilometer
    searchClient := ⟨cfg.searchTimeout⟩
    notifyClient := ⟨cfg.notificationTimeout⟩
    lastFound := [] }

/-- `Checker.alreadyFound` from `check.go`: the current feature's id
(defaulting to the sentinel `-1`); a sentinel id is never "already found";
otherwise scan `lastFound`, reading each previous feature's id with the
CURRENT id as the fallback. -/
def Checker.alreadyFound (c : Checker) (f : Feature) : Bool :=
  let id := mustInt f.id? (-1)
  if id = -1 then
    false
  else
    c.lastFound.any fun of => decide (mustInt of.id? id = id)

/-- Outcome of the notification HTTP round-trip. -/
inductive NetResult where
  | transportError
  | status (code : Nat)
  deriving DecidableEq, Repr

/-- The notification errors of `check.go`: a transport failure, or
`errInvalidStatusReturned` wrapped with the response status. -/
inductive NotifyErr where
  | transport
  | badStatus (code : Nat)
  deriving DecidableEq, Repr

/-- `http.StatusOK`. -/
def statusOK : Nat := 200

/-- What a call to `Checker.notify` did: whether a request went out, on
which client, and the returned Go error (`none` = nil). -/
structure NotifyEffect where
  requestSent : Bool
  clientUsed : Option Client
  result : Option NotifyErr
  deriving DecidableEq, Repr

/-- `Checker.notify` from `check.go`: a no-op returning nil when silent;
otherwise the request is issued via `http.DefaultClient.Do`, a transport
error is returned as an error, and any status other than `http.StatusOK`
is `errInvalidStatusReturned` carrying the status. -/
def Checker.notify (cfg : Config) (found : List Feature) (net : NetResult) :
    NotifyEffect :=
  if cfg.silent then
    { requestSent := false, clientUsed := none, result := none }
  else
    match net with
    | .transportError =>
        { requestSent := true, clientUsed := some defaultClient
          result := some .transport }
    | .status code =>
        if code ≠ statusOK then
          { requestSent := true, clientUsed := some defaultClient
            result := some (.badStatus code) }
        else
          { requestSent := true, clientUsed := some defaultClient
            result := none }

/-- One iteration of the feature loop in `Checker.handle`, transforming
the accumulator `(available, found, foundNew)` exactly as the Go loop
body does. -/
def handleStep (cfg : Config) (c : Checker) (dist : Point → Point → ℚ)
    (acc : Nat × List Feature × List Feature) (f : Feature) :
    Nat × List Feature × List Feature :=
  let available := acc.1
  let found := acc.2.1
  let foundNew := acc.2.2
  if !(mustBool f.appointments_available false) then
    (available, found, foundNew)
  else if !cfg.includeSecondDoseOnly &&
      mustBool f.appointments_available_2nd_dose_only false then
    (available, found, foundNew)
  else
    let available := available + 1
    if dist f.point c.location ≤ c.distance then
      let found := found ++ [f]
      if !(c.alreadyFound f) then
        (available, found, foundNew ++ [f])
      else
        (available, found, foundNew)
    else
      (available, found, foundNew)

/-- The whole feature loop of `Checker.handle`. -/
def handleScan (cfg : Config) (c : Checker) (dist : Point → Point → ℚ)
    (fc : List Feature) : Nat × List Feature × List Feature :=
  fc.foldl (handleStep cfg c dist) (0, [], [])

/-- The fetch errors a cycle can abort with (`Check` in `check.go`):
request construction, transport, or JSON decode failure. -/
inductive CheckError where
  | requestCreation
  | fetchTransport
  | decodeFailure
  deriving DecidableEq, Repr

/-- Everything `Checker.handle` produced in one cycle: the counters and
lists of the loop, the notify call (if any), the updated checker, and the
returned Go error. -/
structure HandleResult where
  available : Nat
  found : List Feature
  foundNew : List Feature
  notified : Option NotifyEffect
  updated : Checker
  result : Option CheckError
  deriving DecidableEq, Repr

/-- `Checker.handle` from `check.go`: run the filter loop, call `notify`
when any new feature was found (discarding its returned error), then
unconditionally overwrite `lastFound` with this cycle's `found`, and
return nil. -/
def Checker.handle (c : Checker) (cfg : Config) (dist : Point → Point → ℚ)
    (fc : List Feature) (net : NetResult) : HandleResult :=
  let s := handleScan cfg c dist fc
  { available := s.1
    found := s.2.1
    foundNew := s.2.2
    notified :=
      if 0 < s.2.2.length then some (Checker.notify cfg s.2.2 net) else none
    updated := { c with lastFound := s.2.1 }
    result := none }

/-- Outcome of the search request phase of `Checker.Check`: request
construction failure, transport failure, a body that does not decode, or
a decoded feature collection. -/
inductive FetchOutcome where
  | requestError
  | transportError
  | decodeError
  | ok (fc : List Feature)
  deriving DecidableEq, Repr

/-- Everything one call to `Checker.Check` produced: the checker
afterwards, the handle phase (when reached), the client the search
request went out on, and the returned Go error. -/
structure CheckResult where
  updated : Checker
  handled : Option HandleResult
  searchClientUsed : Option Client
  result : Option CheckError
  deriving DecidableEq, Repr

/-- `Checker.Check` from `check.go`: build and issue the search request
on `c.searchClient`; on transport error or decode failure return the
error with nothing else done; on success hand the collection to
`Checker.handle`. -/
def Checker.Check (c : Checker) (cfg : Config) (dist : Point → Point → ℚ)
    (fetch : FetchOutcome) (net : NetResult) : CheckResult :=
  match fetch with
  | .requestError =>
      { updated := c, handled := none, searchClientUsed := none
        result := some .requestCreation }
  | .transportError =>
      { updated := c, handled := none
        searchClientUsed := some c.searchClient
        result := some .fetchTransport }
  | .decodeError =>
      { updated := c, handled := none
        searchClientUsed := some c.searchClient
        result := some .decodeFailure }
  | .ok fc =>
      let h := c.handle cfg dist fc net
      { updated := h.updated, handled := some h
        searchClientUsed := some c.searchClient
        result := h.result }

/-- The error stream of the driving loop in `main.go`: an error returned
by `Checker.Check` is logged ("error checking sites, moving on"); a nil
return logs nothing. -/
def loggedErrors (r : CheckResult) : List CheckError :=
  match r.result with
  | some e => [e]
  | none => []

/-- Whether the cycle reached a `notify` call at all. -/
def CheckResult.notifyAttempted (r : CheckResult) : Bool :=
  match r.handled with
  | some h => h.notified.isSome
  | none => false

/-- The availability condition of the loop: `appointments_available` and
not skipped by the second-dose-only rule (the guard before `available++`). -/
def availPred (cfg : Config) (f : Feature) : Bool :=
  mustBool f.appointments_available false &&
    !(!cfg.includeSecondDoseOnly &&
      mustBool f.appointments_available_2nd_dose_only false)

/-- The condition for a feature to enter `found`: available (as above)
and within the configured distance of the location. -/
def foundPred (cfg : Config) (c : Checker) (dist : Point → Point → ℚ)
    (f : Feature) : Bool :=
  availPred cfg f && decide (dist f.point c.location ≤ c.distance)

/-- The condition for a feature to enter `foundNew`: in `found` and not
already found in the previous cycle. -/
def newPred (cfg : Config) (c : Checker) (dist : Point → Point → ℚ)
    (f : Feature) : Bool :=
  foundPred cfg c dist f && !(c.alreadyFound f)

lemma handleStep_eq (cfg : Config) (c : Checker) (dist : Point → Point → ℚ)
    (acc : Nat × List Feature × List Feature) (f : Feature) :
    handleStep cfg c dist acc f =
      (acc.1 + if availPred cfg f then 1 else 0,
        acc.2.1 ++ if foundPred cfg c dist f then [f] else [],
        acc.2.2 ++ if newPred cfg c dist f then [f] else []) := by
  rcases acc with ⟨a, l, m⟩
  by_cases h1 : mustBool f.appointments_available false <;>
    by_cases h2 : (!cfg.includeSecondDoseOnly &&
      mustBool f.appointments_available_2nd_dose_only false) <;>
    by_cases h3 : dist f.point c.location ≤ c.distance <;>
    by_cases h4 : c.alreadyFound f <;>
    simp [handleStep, availPred, foundPred, newPred, h1, h2, h3, h4]

lemma foldl_handleStep (cfg : Config) (c : Checker) (dist : Point → Point → ℚ)
    (fc : List Feature) (a : Nat) (l m : List Feature) :
    fc.foldl (handleStep cfg c dist) (a, l, m) =
      (a + fc.countP (availPred cfg),
        l ++ fc.filter (foundPred cfg c dist),
        m ++ fc.filter (newPred cfg c dist)) := by
  induction fc generalizing a l m with
  | nil => simp
  | cons f fs ih =>
    rw [List.foldl_cons, handleStep_eq, ih]
    by_cases h1 : availPred cfg f <;>
      by_cases h2 : foundPred cfg c dist f <;>
      by_cases h3 : newPred cfg c dist f <;>
      simp [h1, h2, h3, List.countP_cons, List.filter_cons] <;> omega

lemma handleScan_eq (cfg : Config) (c : Checker) (dist : Point → Point → ℚ)
    (fc : List Feature) :
    handleScan cfg c dist fc =
      (fc.countP (availPred cfg), fc.filter (foundPred cfg c dist),
        fc.filter (newPred cfg c dist)) := by
  simp [handleScan, foldl_handleStep]

lemma handle_found (cfg : Config) (c : Checker) (dist : Point → Point → ℚ)
    (fc : List Feature) (net : NetResult) :
    (c.handle cfg dist fc net).found = fc.filter (foundPred cfg c dist) := by
  simp [Checker.handle, handleScan_eq]

lemma handle_foundNew (cfg : Config) (c : Checker) (dist : Point → Point → ℚ)
    (fc : List Feature) (net : NetResult) :
    (c.handle cfg dist fc net).foundNew = fc.filter (newPred cfg c dist) := by
  simp [Checker.handle, handleScan_eq]

lemma handle_updated (cfg : Config) (c : Checker) (dist : Point → Point → ℚ)
    (fc : List Feature) (net : NetResult) :
    (c.handle cfg dist fc net).updated =
      { c with lastFound := fc.filter (foundPred cfg c dist) } := by
  simp [Checker.handle, handleScan_eq]

lemma handle_result (cfg : Config) (c : Checker) (dist : Point → Point → ℚ)
    (fc : List Feature) (net : NetResult) :
    (c.handle cfg dist fc net).result = none := by
  simp [Checker.handle]

/-! ### Concrete scenario data -/

/-- An available site with id 5. -/
def siteId5 : Feature :=
  { id? := some 5, appointments_available := some true
    appointments_available_2nd_dose_only := none, point := (0, 0) }

/-- An available site whose `id` property is absent. -/
def siteNoId : Feature :=
  { id? := none, appointments_available := some true
    appointments_available_2nd_dose_only := none, point := (0, 0) }

/-- An available site that is second-dose-only. -/
def siteSecondDose : Feature :=
  { id? := some 7, appointments_available := some true
    appointments_available_2nd_dose_only := some true, point := (0, 0) }

/-- Baseline configuration: 10 km radius, default timeouts, not silent,
second-dose-only sites excluded. -/
def cfg0 : Config :=
  { longitude := 0, latitude := 0, distanceKm := 10
    searchTimeout := defaultSearchTimeout
    notificationTimeout := defaultNotificationTimeout
    includeSecondDoseOnly := false, silent := false }

/-- `cfg0` with second-dose-only sites included. -/
def cfgInclude : Config := { cfg0 with includeSecondDoseOnly := true }

/-- `cfg0` with silent mode on. -/
def cfgSilent : Config := { cfg0 with silent := true }

/-- A checker as `NewChecker cfg0` would build it (distance 10 km =
10000 m), with an empty previous cycle. -/
def checker0 : Checker :=
  { location := (0, 0), distance := 10000, searchClient := ⟨20⟩
    notifyClient := ⟨10⟩, lastFound := [] }

/-- `checker0` whose previous cycle found one feature lacking its id. -/
def checkerPrevNoId : Checker := { checker0 with lastFound := [siteNoId] }

/-- A degenerate distance function: every site sits on the location. -/
def distZero : Point → Point → ℚ := fun _ _ => 0

/-- A distance function putting every site exactly at the 10 km radius. -/
def distEdge : Point → Point → ℚ := fun _ _ => 10000

/-! ### Claims -/

/-- C1: the claim says a site whose identifier is absent from the
previous FoundSet is always classified as new, whatever identifiers the
previous sites carry.  The code breaks this: `alreadyFound` reads a
previous feature's id with the CURRENT id as fallback, so a previous
feature with a missing id matches any current id.  Here every previous
feature lacks its id (so the current id 5 is present in no previous
feature), yet the site is classified as already found — and hence not
new, contradicting both the claim and the code's own
"err on the side of reporting" comment. -/
theorem alreadyFound_swallows_new_site_when_prev_id_missing :
    checkerPrevNoId.lastFound.all (fun of => of.id?.isNone) = true ∧
    mustInt siteId5.id? (-1) = 5 ∧
    checkerPrevNoId.alreadyFound siteId5 = true ∧
    (checkerPrevNoId.handle cfg0 distZero [siteId5] (.status 200)).foundNew
      = [] := by
  decide

/-- C2: after a cycle whose fetch and decode succeed, `lastFound` equals
exactly that cycle's FoundSet (`found`), and the overwrite does not
depend on the notification outcome `net` — a failed notification does
not block it. -/
theorem lastFound_overwrite_unconditional (cfg : Config) (c : Checker)
    (dist : Point → Point → ℚ) (fc : List Feature) (net net' : NetResult) :
    (c.Check cfg dist (.ok fc) net).updated.lastFound =
      (c.handle cfg dist fc net).found ∧
    (c.handle cfg dist fc net).updated.lastFound =
      (c.handle cfg dist fc net).found ∧
    (c.handle cfg dist fc net).updated = (c.handle cfg dist fc net').updated := by
  refine ⟨?_, ?_, ?_⟩ <;> simp [Checker.Check, handle_updated, handle_found]

/-- C5: on a fetch transport error or a decode failure, `Check` returns
the corresponding fetch error, the checker (hence `lastFound`) is
unchanged, the handle phase is never reached and no notification is
attempted. -/
theorem check_aborts_on_fetch_failure (cfg : Config) (c : Checker)
    (dist : Point → Point → ℚ) (net : NetResult) :
    ((c.Check cfg dist .transportError net).result = some .fetchTransport ∧
      (c.Check cfg dist .transportError net).updated = c ∧
      (c.Check cfg dist .transportError net).handled = none ∧
      (c.Check cfg dist .transportError net).notifyAttempted = false) ∧
    ((c.Check cfg dist .decodeError net).result = some .decodeFailure ∧
      (c.Check cfg dist .decodeError net).updated = c ∧
      (c.Check cfg dist .decodeError net).handled = none ∧
      (c.Check cfg dist .decodeError net).notifyAttempted = false) := by
  refine ⟨⟨?_, ?_, ?_, ?_⟩, ⟨?_, ?_, ?_, ?_⟩⟩ <;>
    simp [Checker.Check, CheckResult.notifyAttempted]

/-- C9: with silent mode configured, `notify` is a no-op returning
success: no request is issued on any client and no error is raised,
whatever the new sites and whatever the network would have answered. -/
theorem notify_silent_noop (cfg : Config) (found : List Feature)
    (net : NetResult) (h : cfg.silent = true) :
    Checker.notify cfg found net =
      { requestSent := false, clientUsed := none, result := none } := by
  simp [Checker.notify, h]

/-- Witness for C9 at a concrete silent configuration with a new site and
a failing endpoint. -/
theorem notify_silent_noop_witness :
    Checker.notify cfgSilent [siteId5] (.status 500) =
      { requestSent := false, clientUsed := none, result := none } :=
  notify_silent_noop cfgSilent [siteId5] (.status 500) (by decide)

/-- C3: a site enters FoundSet only if its `appointments_available`
property reads as true, and only if it is not second-dose-only or
`include-second-dose-only` is set; conversely with the flag set, an
available second-dose-only site within range is included. -/
theorem found_requires_availability_filters (cfg : Config) (c : Checker)
    (dist : Point → Point → ℚ) (fc : List Feature) (net : NetResult) :
    (∀ f ∈ (c.handle cfg dist fc net).found,
      mustBool f.appointments_available false = true ∧
      (mustBool f.appointments_available_2nd_dose_only false = true →
        cfg.includeSecondDoseOnly = true)) ∧
    (cfg.includeSecondDoseOnly = true →
      ∀ f ∈ fc, mustBool f.appointments_available false = true →
        dist f.point c.location ≤ c.distance →
        f ∈ (c.handle cfg dist fc net).found) := by
  constructor
  · intro f hf
    rw [handle_found, List.mem_filter] at hf
    have hp := hf.2
    simp only [foundPred, availPred, Bool.and_eq_true, Bool.not_eq_true',
      Bool.and_eq_false_iff, Bool.not_eq_false] at hp
    refine ⟨hp.1.1, fun hd => ?_⟩
    rcases hp.1.2 with h | h
    · simpa using h
    · rw [hd] at h; cases h
  · intro hinc f hf ha hd
    rw [handle_found, List.mem_filter]
    exact ⟨hf, by simp [foundPred, availPred, ha, hinc, hd]⟩

/-- Witness for C3: with `include-second-dose-only` set, an available
second-dose-only site at the location itself lands in FoundSet. -/
theorem found_requires_availability_filters_witness :
    siteSecondDose ∈
      (checker0.handle cfgInclude distZero [siteSecondDose] (.status 200)).found :=
  (found_requires_availability_filters cfgInclude checker0 distZero
      [siteSecondDose] (.status 200)).2 (by decide) siteSecondDose (by decide)
    (by decide) (by decide)

/-- C4: among sites passing the availability filters, membership in
FoundSet is exactly the inclusive comparison
`dist site location ≤ radius`; and `NewChecker` stores the configured
kilometer radius multiplied by `metersPerKilometer = 1000`. -/
theorem found_iff_within_inclusive_radius (cfg cfg' : Config) (c : Checker)
    (dist : Point → Point → ℚ) (fc : List Feature) (net : NetResult) :
    (∀ f ∈ fc, availPred cfg f = true →
      (f ∈ (c.handle cfg dist fc net).found ↔
        dist f.point c.location ≤ c.distance)) ∧
    (NewChecker cfg').distance = cfg'.distanceKm * metersPerKilometer ∧
    metersPerKilometer = 1000 := by
  refine ⟨?_, rfl, rfl⟩
  intro f hf ha
  rw [handle_found]
  simp [List.mem_filter, hf, foundPred, ha]

/-- Witness for C4: a site sitting exactly at the configured radius
(10000 m from the location, radius 10000 m) is included in FoundSet. -/
theorem found_iff_within_inclusive_radius_witness :
    distEdge siteId5.point checker0.location = checker0.distance ∧
    siteId5 ∈ (checker0.handle cfg0 distEdge [siteId5] (.status 200)).found :=
  ⟨by decide,
    ((found_iff_within_inclusive_radius cfg0 cfg0 checker0 distEdge [siteId5]
        (.status 200)).1 siteId5 (by decide) (by decide)).mpr (by decide)⟩

/-- C10: FoundSet is an order-preserving subsequence of the fetched
collection, the new-site list is an order-preserving subsequence of
FoundSet, and every site in the new-site list (the argument handed to
`notify`) belongs to FoundSet and passed all the filters. -/
theorem found_sublist_and_notify_from_found (cfg : Config) (c : Checker)
    (dist : Point → Point → ℚ) (fc : List Feature) (net : NetResult) :
    ((c.handle cfg dist fc net).found).Sublist fc ∧
    ((c.handle cfg dist fc net).foundNew).Sublist
      ((c.handle cfg dist fc net).found) ∧
    (∀ f ∈ (c.handle cfg dist fc net).foundNew,
      f ∈ (c.handle cfg dist fc net).found ∧ foundPred cfg c dist f = true) := by
  refine ⟨?_, ?_, ?_⟩
  · rw [handle_found]; exact List.filter_sublist fc
  · rw [handle_found, handle_foundNew]
    refine List.monotone_filter_right fc (fun a ha => ?_)
    simp only [newPred, Bool.and_eq_true] at ha
    exact ha.1
  · intro f hf
    rw [handle_foundNew, List.mem_filter] at hf
    have hp := hf.2
    simp only [newPred, Bool.and_eq_true] at hp
    rw [handle_found, List.mem_filter]
    exact ⟨⟨hf.1, hp.1⟩, hp.1⟩

/-- Witness for C10: in a concrete cycle the single new site is in
FoundSet and passes the filter predicate. -/
theorem found_sublist_and_notify_from_found_witness :
    siteId5 ∈ (checker0.handle cfg0 distZero [siteId5] (.status 200)).found ∧
    foundPred cfg0 checker0 distZero siteId5 = true :=
  (found_sublist_and_notify_from_found cfg0 checker0 distZero [siteId5]
      (.status 200)).2.2 siteId5 (by decide)

/-- The error `notify` returned inside a cycle, when a notify call
happened at all (`handle` discards this value). -/
def notifyErrorOf (r : CheckResult) : Option NotifyErr :=
  match r.handled with
  | some h =>
    match h.notified with
    | some e => e.result
    | none => none
  | none => none

/-- After a cycle, the driving loop of `main.go` terminates only when the
interrupt context has fired; the cycle's outcome plays no part in the
decision. -/
def loopTerminates (r : CheckResult) (interrupted : Bool) : Bool :=
  interrupted

/-- C6 counterexample: the claim says any 2xx notification status is a
success, but the code compares against exactly `http.StatusOK`: status
201 is 2xx yet `notify` returns the bad-status error. -/
theorem notify_status_201_is_error :
    200 ≤ 201 ∧ 201 ≤ 299 ∧
    (Checker.notify cfg0 [siteId5] (.status 201)).result =
      some (.badStatus 201) := by
  decide

/-- C6 amended: when not silent, `notify` succeeds exactly on status 200,
and any other status yields the invalid-status error carrying that
status. -/
theorem notify_ok_iff_status_200 (cfg : Config) (found : List Feature)
    (code : Nat) (h : cfg.silent = false) :
    ((Checker.notify cfg found (.status code)).result = none ↔ code = 200) ∧
    (code ≠ 200 →
      (Checker.notify cfg found (.status code)).result =
        some (.badStatus code)) := by
  by_cases hc : code = 200 <;> simp [Checker.notify, h, statusOK, hc]

/-- Witness for the amended C6 at status 500 on a non-silent config. -/
theorem notify_ok_iff_status_200_witness :
    (Checker.notify cfg0 [siteId5] (.status 500)).result =
      some (.badStatus 500) :=
  (notify_ok_iff_status_200 cfg0 [siteId5] 500 (by decide)).2 (by decide)

/-- C7 counterexample: the claim says a failing notification's error is
surfaced/logged to the error stream.  In a concrete cycle where the
endpoint answers 500, `notify` does produce the bad-status error, but
`handle` drops its return value, the cycle returns nil, and the driving
loop's error stream logs nothing. -/
theorem notify_error_not_logged :
    notifyErrorOf (checker0.Check cfg0 distZero (.ok [siteId5]) (.status 500)) =
      some (.badStatus 500) ∧
    loggedErrors (checker0.Check cfg0 distZero (.ok [siteId5]) (.status 500)) =
      [] ∧
    (checker0.Check cfg0 distZero (.ok [siteId5]) (.status 500)).result =
      none := by
  decide

/-- C7 amended: when notify fails during a successfully fetched cycle,
its error is silently discarded — nothing reaches the error stream — and
the cycle still completes: the state update to this cycle's FoundSet
happens, the cycle returns nil, and the loop does not terminate. -/
theorem notify_error_discarded_cycle_completes (cfg : Config) (c : Checker)
    (dist : Point → Point → ℚ) (fc : List Feature) (net : NetResult)
    (e : NotifyErr)
    (h : notifyErrorOf (c.Check cfg dist (.ok fc) net) = some e) :
    (c.Check cfg dist (.ok fc) net).result = none ∧
    loggedErrors (c.Check cfg dist (.ok fc) net) = [] ∧
    (c.Check cfg dist (.ok fc) net).updated.lastFound =
      fc.filter (foundPred cfg c dist) ∧
    loopTerminates (c.Check cfg dist (.ok fc) net) false = false := by
  have hr : (c.Check cfg dist (.ok fc) net).result = none := by
    simp [Checker.Check, handle_result]
  refine ⟨hr, ?_, ?_, rfl⟩
  · simp [loggedErrors, hr]
  · simp [Checker.Check, handle_updated]

/-- Witness for the amended C7: a concrete cycle whose notification gets
a 500 answer. -/
theorem notify_error_discarded_cycle_completes_witness :
    (checker0.Check cfg0 distZero (.ok [siteId5]) (.status 500)).result =
      none ∧
    loggedErrors (checker0.Check cfg0 distZero (.ok [siteId5]) (.status 500)) =
      [] ∧
    (checker0.Check cfg0 distZero (.ok [siteId5])
        (.status 500)).updated.lastFound =
      [siteId5].filter (foundPred cfg0 checker0 distZero) ∧
    loopTerminates (checker0.Check cfg0 distZero (.ok [siteId5]) (.status 500))
      false = false :=
  notify_error_discarded_cycle_completes cfg0 checker0 distZero [siteId5]
    (.status 500) (.badStatus 500) (by decide)

/-- C8: the claim says the notification request goes out on the client
configured with the notification timeout.  The code builds that client
(`NewChecker` stores the configured 10 s timeout in `notifyClient`) but
`notify` issues the request on `http.DefaultClient`, whose zero value
means no timeout at all; the configured client is never used.  The search
side does behave as claimed: `Check` uses `searchClient` with the search
timeout. -/
theorem notify_bypasses_configured_notify_client :
    (checker0.Check cfg0 distZero (.ok []) (.status 200)).searchClientUsed =
      some checker0.searchClient ∧
    (NewChecker cfg0).searchClient.timeout = cfg0.searchTimeout ∧
    (NewChecker cfg0).notifyClient.timeout = defaultNotificationTimeout ∧
    (Checker.notify cfg0 [siteId5] (.status 200)).clientUsed =
      some defaultClient ∧
    (Checker.notify cfg0 [siteId5] .transportError).clientUsed =
      some defaultClient ∧
    defaultClient.timeout = 0 ∧
    (Checker.notify cfg0 [siteId5] (.status 200)).clientUsed ≠
      some (NewChecker cfg0).notifyClient := by
  decide

end VaccineChecker
